import Mathlib

/-!
Verification of the zenith trading platform's simulation core against its
specification.  The Rust source is shallowly embedded: `rust_decimal::Decimal`
values (exact decimal arithmetic) are modelled as rationals, `chrono`
timestamps as integers, and stateful `&mut self` methods as explicit state
passing.  Each
definition mirrors one function of the source crates (`executor`, `risk`,
`backtester`, `analytics`, `analyzer`).
-/

/-- Exact decimal numbers (`rust_decimal::Decimal`) modelled as rationals.
All arithmetic the embedded code performs (add, sub, mul, guarded div) is
exact in Decimal for the magnitudes involved, so `Rat` is a faithful model. -/
abbrev Dec := Rat

/-- Timestamps (`chrono::DateTime<Utc>`) modelled as integers. -/
abbrev Timestamp := Int

/-- Sign test `Decimal::is_sign_negative`: true exactly on negative values
(computed zeros in `rust_decimal` carry a positive sign). -/
def decIsSignNegative (x : Dec) : Bool := decide (x < 0)

/-- Sign test `Decimal::is_sign_positive`: true on nonnegative values; in
`rust_decimal` an unsigned zero — the only zero the embedded arithmetic
produces — is sign-positive. -/
def decIsSignPositive (x : Dec) : Bool := decide (0 ≤ x)

/-- Order side enum from `core-types/src/enums.rs`. -/
inductive OrderSide where
  | Buy
  | Sell
deriving DecidableEq

/-- OrderSide::opposite from `core-types/src/enums.rs`. -/
def OrderSide.opposite : OrderSide → OrderSide
  | OrderSide.Buy => OrderSide.Sell
  | OrderSide.Sell => OrderSide.Buy

/-- Order type enum from `core-types/src/enums.rs`. -/
inductive OrderType where
  | Market
  | Limit
deriving DecidableEq

/-- Position side enum from `core-types/src/enums.rs`. -/
inductive PositionSide where
  | Long
  | Short
deriving DecidableEq

/-- PositionSide::from_order_side from `core-types/src/enums.rs`. -/
def PositionSide.from_order_side : OrderSide → PositionSide
  | OrderSide.Buy => PositionSide.Long
  | OrderSide.Sell => PositionSide.Short

/-- Modelled from the spec: `Kline` of `core-types` (the `structs.rs` file is
absent from the source tree; fields follow §3 of the spec and every use site).
The Rust field `open` is rendered `open_price` (`open` is a Lean keyword);
Uuid fields throughout are modelled as `Nat`. -/
structure Kline where
  open_time : Timestamp
  close_time : Timestamp
  interval : String
  open_price : Dec
  high : Dec
  low : Dec
  close : Dec
  volume : Dec
deriving DecidableEq

/-- Modelled from the spec: `OrderRequest` of `core-types` (§3 of the spec;
`structs.rs` is absent from the source tree). -/
structure OrderRequest where
  client_order_id : Nat
  symbol : String
  side : OrderSide
  order_type : OrderType
  quantity : Dec
  price : Option Dec
  position_side : Option PositionSide
deriving DecidableEq

/-- Modelled from the spec: `Execution` of `core-types` (§3 of the spec;
`structs.rs` is absent from the source tree). -/
structure Execution where
  execution_id : Nat
  client_order_id : Nat
  symbol : String
  price : Dec
  quantity : Dec
  fee : Dec
  fee_asset : String
  timestamp : Timestamp
  side : OrderSide
deriving DecidableEq

/-- Modelled from the spec: `Position` of `core-types` (§3 of the spec;
`structs.rs` is absent from the source tree). -/
structure Position where
  position_id : Nat
  symbol : String
  side : OrderSide
  quantity : Dec
  entry_price : Dec
  unrealized_pnl : Dec
  last_updated : Timestamp
deriving DecidableEq

/-- Modelled from the spec: `Signal` of `core-types` (§3 of the spec;
`structs.rs` is absent from the source tree). -/
structure Signal where
  signal_id : Nat
  timestamp : Timestamp
  confidence : Dec
  order_request : OrderRequest
deriving DecidableEq

/-- Modelled from the spec: `Trade` of `core-types` (§3 of the spec;
`structs.rs` is absent from the source tree). -/
structure Trade where
  trade_id : Nat
  symbol : String
  entry_execution : Execution
  exit_execution : Execution
deriving DecidableEq

/-- ExecutorError from `executor/src/error.rs`.  The Rust variants carry the
offending amounts rendered through `to_string`; the model keeps the decimal
values themselves. -/
inductive ExecutorError where
  | InsufficientCash (required : Dec) (available : Dec)
  | PositionNotFound (symbol : String)
  | InvalidClosingQuantity (requested : Dec) (available : Dec)
  | PortfolioError (msg : String)
  | Api (msg : String)
deriving DecidableEq

/-- Portfolio from `executor/src/portfolio.rs`: cash plus a map from symbol to
position.  The `HashMap` is modelled as an association list with unique keys
(exactly the states a `HashMap` can take). -/
structure Portfolio where
  cash : Dec
  positions : List (String × Position)
deriving DecidableEq

/-- Portfolio::new from `executor/src/portfolio.rs`. -/
def Portfolio.new (initial_capital : Dec) : Portfolio :=
  { cash := initial_capital, positions := [] }

/-- HashMap::get modelled on the association list. -/
def posLookup (l : List (String × Position)) (s : String) : Option Position :=
  match l.find? (fun kv => decide (kv.1 = s)) with
  | some kv => some kv.2
  | none => none

/-- HashMap insert-or-replace (the write-back of an `entry()` mutation). -/
def posStore (l : List (String × Position)) (s : String) (v : Position) :
    List (String × Position) :=
  if l.any (fun kv => decide (kv.1 = s)) then
    l.map (fun kv => if kv.1 = s then (s, v) else kv)
  else
    l ++ [(s, v)]

/-- HashMap::remove modelled on the association list. -/
def posRemove (l : List (String × Position)) (s : String) :
    List (String × Position) :=
  l.filter (fun kv => decide (kv.1 ≠ s))

/-- Portfolio::get_position from `executor/src/portfolio.rs`. -/
def Portfolio.get_position (p : Portfolio) (s : String) : Option Position :=
  posLookup p.positions s

/-- Fresh position inserted by the `or_insert_with` closure in
Portfolio::update_with_execution (`executor/src/portfolio.rs` lines 51-62).
`Uuid::new_v4()` and `Utc::now()` are nondeterministic identifiers never
observed by any claim; they are modelled as 0. -/
def freshPosition (e : Execution) : Position :=
  { position_id := 0
    symbol := e.symbol
    side := e.side
    quantity := 0
    entry_price := 0
    unrealized_pnl := 0
    last_updated := 0 }

/-- Write-back of the mutated position at the end of
Portfolio::update_with_execution (lines 90-97): stamp `last_updated`, then
drop the map entry if the resulting quantity is zero. -/
def Portfolio.write_position (p : Portfolio) (e : Execution) (pos : Position) :
    Except ExecutorError Unit × Portfolio :=
  let pos := { pos with last_updated := e.timestamp }
  if pos.quantity = 0 then
    (Except.ok (), { p with positions := posRemove p.positions e.symbol })
  else
    (Except.ok (), { p with positions := posStore p.positions e.symbol pos })

/-- Cash effect of one execution (Portfolio::update_with_execution lines
31-41): a Buy debits `price * quantity`, a Sell credits it, and the fee is
debited either way. -/
def Portfolio.cash_after (p : Portfolio) (e : Execution) : Dec :=
  (match e.side with
    | OrderSide.Buy => p.cash - e.price * e.quantity
    | OrderSide.Sell => p.cash + e.price * e.quantity) - e.fee

/-- Portfolio::update_with_execution from `executor/src/portfolio.rs` lines
27-98.  Rust's `&mut self` with early `return Err` is modelled by returning
the (possibly part-mutated) portfolio next to the `Result`.  The `entry()`
insertion of a fresh position is deferred to the write-back: on the
`InsufficientCash` path it has not happened yet, and on the
`InvalidClosingQuantity` path the entry pre-existed and is untouched, so the
observable states coincide with the Rust ones. -/
def Portfolio.update_with_execution (p : Portfolio) (e : Execution) :
    Except ExecutorError Unit × Portfolio :=
  let cost := e.price * e.quantity
  -- cash update (lines 31-41): buys debit, sells credit, fee always debited
  let cash' := p.cash_after e
  if decIsSignNegative cash' then
    (Except.error (ExecutorError.InsufficientCash cost (cash' + cost + e.fee)),
     { p with cash := cash' })
  else
    let position := (posLookup p.positions e.symbol).getD (freshPosition e)
    let p' : Portfolio := { p with cash := cash' }
    if decIsSignPositive position.quantity ∧ position.side ≠ e.side then
      -- closing or reducing the position
      if position.quantity < e.quantity then
        (Except.error
          (ExecutorError.InvalidClosingQuantity e.quantity position.quantity),
         p')
      else
        p'.write_position e { position with quantity := position.quantity - e.quantity }
    else
      -- opening or increasing the position
      let existing_value := position.entry_price * position.quantity
      let new_value := e.price * e.quantity
      let total_quantity := position.quantity + e.quantity
      let pos' : Position :=
        { position with
          side := e.side
          entry_price :=
            if total_quantity ≠ 0 then (existing_value + new_value) / total_quantity
            else position.entry_price
          quantity := position.quantity + e.quantity }
      p'.write_position e pos'

/-- Portfolio::calculate_total_equity from `executor/src/portfolio.rs` lines
102-126, with the market-price `HashMap` modelled as an association list. -/
def Portfolio.calculate_total_equity (p : Portfolio)
    (market_prices : List (String × Dec)) : Except ExecutorError Dec :=
  let rec go : List (String × Position) → Except ExecutorError Dec
    | [] => Except.ok 0
    | (symbol, position) :: rest =>
      match (market_prices.find? (fun kv => decide (kv.1 = symbol))).map (·.2) with
      | none => Except.error (ExecutorError.PortfolioError
          ("Missing market price for symbol: " ++ symbol))
      | some current_price =>
        let pnl_per_unit := match position.side with
          | OrderSide.Buy => current_price - position.entry_price
          | OrderSide.Sell => position.entry_price - current_price
        let market_value := position.entry_price * position.quantity
          + pnl_per_unit * position.quantity
        match go rest with
        | Except.ok acc => Except.ok (market_value + acc)
        | Except.error err => Except.error err
  match go p.positions with
  | Except.ok positions_value => Except.ok (p.cash + positions_value)
  | Except.error err => Except.error err

/-- Sequential application of executions (the way every driver feeds the
portfolio): stop at the first error, otherwise thread the state. -/
def Portfolio.update_all (p : Portfolio) : List Execution → Except ExecutorError Portfolio
  | [] => Except.ok p
  | e :: rest =>
    match p.update_with_execution e with
    | (Except.ok _, p') => p'.update_all rest
    | (Except.error err, _) => Except.error err

/-- Classification used by Portfolio::update_with_execution line 64: the
execution closes (part of) a position iff a position is held for its symbol
with sign-positive quantity and the opposite side.  When no position exists
the `or_insert_with` default carries the execution's own side, so the
classification is false. -/
def Portfolio.is_closing_trade (p : Portfolio) (e : Execution) : Bool :=
  match p.get_position e.symbol with
  | some position =>
      decIsSignPositive position.quantity && decide (position.side ≠ e.side)
  | none => false

/-- Simulation cost parameters from `configuration/src/settings.rs` lines
86-95. -/
structure Simulation where
  taker_fee_pct : Dec
  slippage_pct : Dec
deriving DecidableEq

/-- SimulatedExecutor::calculate_slippage_price from
`executor/src/exchange.rs` lines 84-105: slippage moves the close price
against the order by `slippage_pct` of the bar's high-low range. -/
def SimulatedExecutor.calculate_slippage_price (params : Simulation)
    (order_side : OrderSide) (kline : Kline) : Dec :=
  let bar_range := kline.high - kline.low
  if bar_range = 0 then
    kline.close
  else
    let slippage_amount := bar_range * params.slippage_pct
    match order_side with
    | OrderSide.Buy => kline.close + slippage_amount
    | OrderSide.Sell => kline.close - slippage_amount

/-- SimulatedExecutor::execute from `executor/src/exchange.rs` lines 111-143.
The order's limit `price` field is never read.  `Utc::now()` — the wall clock
the Rust reads for the receipt's timestamp — is passed in as `now`;
`Uuid::new_v4()` is modelled as 0.  The simulated path never errs. -/
def SimulatedExecutor.execute (params : Simulation) (order : OrderRequest)
    (kline : Kline) (now : Timestamp) : Execution :=
  let execution_price := SimulatedExecutor.calculate_slippage_price params order.side kline
  let fee := execution_price * order.quantity * params.taker_fee_pct
  { execution_id := 0
    client_order_id := order.client_order_id
    symbol := order.symbol
    price := execution_price
    quantity := order.quantity
    fee := fee
    fee_asset := "USDT"
    timestamp := now
    side := order.side }

/-- RiskError from `risk/src/error.rs`. -/
inductive RiskError where
  | InvalidParameters (msg : String)
  | InsufficientEquity (equity : Dec)
  | InvalidStopLoss (msg : String)
  | InvalidEntryPrice (price : Dec)
  | Calculation (msg : String)
deriving DecidableEq

/-- Risk parameters from `configuration/src/settings.rs` lines 99-104. -/
structure RiskManagement where
  risk_per_trade_pct : Dec
  stop_loss_pct : Dec
deriving DecidableEq

/-- PortfolioState from `events/src/messages.rs` lines 25-30. -/
structure PortfolioState where
  timestamp : Timestamp
  cash : Dec
  total_value : Dec
  positions : List Position
deriving DecidableEq

/-- Banker's rounding to an integer (`rust_decimal`'s `round`, strategy
MidpointNearestEven). -/
def roundHalfEven (x : Dec) : Int :=
  let f := Int.floor x
  let frac := x - f
  if frac < 1/2 then f
  else if 1/2 < frac then f + 1
  else if f % 2 = 0 then f else f + 1

/-- Decimal::round_dp (banker's rounding to `dp` decimal places). -/
def roundDp (dp : Nat) (x : Dec) : Dec :=
  (roundHalfEven (x * (10 : Dec) ^ dp) : Dec) / (10 : Dec) ^ dp

/-- round_quantity_to_precision from `risk/src/simple_manager.rs` lines
13-25: symbol-keyed precision, then `(q * scale).round() / scale`. -/
def round_quantity_to_precision (symbol : String) (quantity : Dec) : Dec :=
  let precision : Nat := if symbol = "BTCUSDT" then 3
    else if symbol = "ETHUSDT" then 3
    else 2
  let scale : Dec := (10 : Dec) ^ precision
  (roundHalfEven (quantity * scale) : Dec) / scale

/-- SimpleRiskManager::evaluate_signal from `risk/src/simple_manager.rs`
lines 56-177.  The opposite-side early return (lines 75-83) precedes every
sizing computation; the sizing path mirrors lines 87-176. -/
def SimpleRiskManager.evaluate_signal (params : RiskManagement)
    (signal : Signal) (portfolio_state : PortfolioState) (entry_price : Dec) :
    Except RiskError OrderRequest :=
  -- 1. validation
  if entry_price ≤ 0 then
    Except.error (RiskError.InvalidEntryPrice entry_price)
  else if portfolio_state.total_value ≤ 0 then
    Except.error (RiskError.InsufficientEquity portfolio_state.total_value)
  else
    -- 2. existing position check
    let current_position := portfolio_state.positions.find?
      (fun p => decide (p.symbol = signal.order_request.symbol))
    let opposite_close : Option OrderRequest :=
      match current_position with
      | some position =>
        if position.side ≠ signal.order_request.side then
          some { signal.order_request with
                 quantity := position.quantity
                 side := position.side.opposite
                 position_side :=
                   some (PositionSide.from_order_side position.side.opposite) }
        else none
      | none => none
    match opposite_close with
    | some close_order => Except.ok close_order
    | none =>
      -- 3. stop-loss price and distance
      let stop_loss_price := match signal.order_request.side with
        | OrderSide.Buy => entry_price * (1 - params.stop_loss_pct)
        | OrderSide.Sell => entry_price * (1 + params.stop_loss_pct)
      let stop_loss_distance := |entry_price - stop_loss_price|
      if stop_loss_distance = 0 then
        Except.error (RiskError.Calculation "Stop-loss distance cannot be zero")
      else
        -- 4. risk capital and final quantity
        let risk_capital := portfolio_state.total_value * params.risk_per_trade_pct
        let scaled_risk_capital := risk_capital * signal.confidence
        let position_value := scaled_risk_capital / params.stop_loss_pct
        let max_position_value := portfolio_state.cash * (95 / 100 : Dec)
        let position_value := min position_value max_position_value
        let target_quantity :=
          if 0 < entry_price then position_value / entry_price else 0
        let target_quantity := roundDp 6 target_quantity
        let min_order_size : Dec := 1 / 10000
        if target_quantity < min_order_size then
          Except.error (RiskError.Calculation "Order quantity is below minimum order size")
        else
          let quantity? : Except RiskError Dec :=
            match current_position with
            | some position =>
              if position.quantity < target_quantity then
                Except.ok (target_quantity - position.quantity)
              else
                Except.error (RiskError.Calculation
                  "Target quantity is not larger than current position. No order needed.")
            | none => Except.ok target_quantity
          match quantity? with
          | Except.error err => Except.error err
          | Except.ok quantity =>
            -- 5./6. precision rounding and final order construction
            let rounded_quantity :=
              round_quantity_to_precision signal.order_request.symbol quantity
            Except.ok { signal.order_request with
                        quantity := rounded_quantity
                        position_side := some (PositionSide.from_order_side
                          signal.order_request.side) }

/-- StrategyError from `strategies/src/error.rs`. -/
inductive StrategyError where
  | InvalidParameters (msg : String)
  | IndicatorError (msg : String)
  | StrategyNotFound (msg : String)
deriving DecidableEq

/-- BacktestError from `backtester/src/error.rs` (payloads of the variants
irrelevant to the claims are reduced to strings). -/
inductive BacktestError where
  | Database (msg : String)
  | Strategy (err : StrategyError)
  | Risk (err : RiskError)
  | Executor (err : ExecutorError)
  | Analytics (msg : String)
  | ProgressBarTemplate (msg : String)
  | DataUnavailable
deriving DecidableEq

/-- Per-bar strategy evaluation (`Box<dyn Strategy>::evaluate`): the driver is
generic in the strategy, modelled as a function parameter. -/
abbrev StrategyFn := Kline → Except StrategyError (Option Signal)

/-- Risk-manager evaluation (`Box<dyn RiskManager>::evaluate_signal`),
modelled as a function parameter of the driver. -/
abbrev RiskFn := Signal → PortfolioState → Dec → Except RiskError OrderRequest

/-- Executor (`Box<dyn Executor>::execute`), modelled as a function parameter
of the driver (bid/ask are always `None` in the simulation driver). -/
abbrev ExecFn :=
  OrderRequest → Kline → Option Dec → Option Dec → Except ExecutorError Execution

/-- The mutable locals of Backtester::run (`backtester/src/lib.rs` lines
73-76) together with the portfolio. -/
structure BacktestState where
  portfolio : Portfolio
  pending_entry : Option Execution
  stop_loss_price : Option Dec
  completed_trades : List Trade
  equity_curve : List (Timestamp × Dec)
deriving DecidableEq

/-- Equity recording at the end of a bar iteration (Backtester::run lines
187-190): value the single symbol at the bar's close. -/
def Backtester.record_equity (symbol : String) (kline : Kline)
    (st : BacktestState) : Except BacktestError BacktestState :=
  match st.portfolio.calculate_total_equity [(symbol, kline.close)] with
  | Except.error err => Except.error (BacktestError.Executor err)
  | Except.ok total_equity =>
    Except.ok { st with
      equity_curve := st.equity_curve ++ [(kline.close_time, total_equity)] }

/-- Strategy evaluation and signal processing for one bar (Backtester::run
lines 137-191): evaluate the strategy, route any signal through the risk
manager (whose rejection is propagated by the `?` on line 155), execute,
update the portfolio, match trades, set or clear the tracked stop, and record
equity. -/
def Backtester.strategy_phase (cfg : RiskManagement) (strategy : StrategyFn)
    (risk : RiskFn) (exec : ExecFn) (symbol : String)
    (st : BacktestState) (kline : Kline) : Except BacktestError BacktestState :=
  match strategy kline with
  | Except.error err => Except.error (BacktestError.Strategy err)
  | Except.ok none => Backtester.record_equity symbol kline st
  | Except.ok (some signal) =>
    let position_before := st.portfolio.get_position symbol
    match st.portfolio.calculate_total_equity [(symbol, kline.close)] with
    | Except.error err => Except.error (BacktestError.Executor err)
    | Except.ok total_equity =>
      let portfolio_state : PortfolioState :=
        { timestamp := kline.close_time
          cash := st.portfolio.cash
          total_value := total_equity
          positions := st.portfolio.positions.map (·.2) }
      match risk signal portfolio_state kline.close with
      | Except.error err => Except.error (BacktestError.Risk err)
      | Except.ok order_request =>
        match exec order_request kline none none with
        | Except.error err => Except.error (BacktestError.Executor err)
        | Except.ok execution =>
          match st.portfolio.update_with_execution execution with
          | (Except.error err, _) => Except.error (BacktestError.Executor err)
          | (Except.ok _, portfolio') =>
            let position_after := portfolio'.get_position symbol
            let st' : BacktestState :=
              match position_before, position_after with
              | none, some pos_after =>
                -- opened a new position: remember the entry, set the stop
                { st with
                  portfolio := portfolio'
                  pending_entry := some execution
                  stop_loss_price := some (match pos_after.side with
                    | OrderSide.Buy =>
                        pos_after.entry_price * (1 - cfg.stop_loss_pct)
                    | OrderSide.Sell =>
                        pos_after.entry_price * (1 + cfg.stop_loss_pct)) }
              | some _, none =>
                -- closed the position: pop the pending entry, emit a Trade
                let completed := match st.pending_entry with
                  | some entry_execution => st.completed_trades ++
                      [{ trade_id := 0
                         symbol := symbol
                         entry_execution := entry_execution
                         exit_execution := execution }]
                  | none => st.completed_trades
                { st with
                  portfolio := portfolio'
                  pending_entry := none
                  stop_loss_price := none
                  completed_trades := completed }
              | _, _ => { st with portfolio := portfolio' }
            Backtester.record_equity symbol kline st'

/-- One iteration of the kline loop of Backtester::run
(`backtester/src/lib.rs` lines 86-192).  The stop-loss check (lines 89-135)
precedes strategy evaluation; on a trigger the synthetic close order carries
the stop price in its (never-read) limit `price` field, the bar `continue`s —
skipping both the strategy and this bar's equity record — and the stop is
cleared.  The synthetic signal wrapper (id, confidence) around the close
order is dropped: only its `order_request` reaches the executor. -/
def Backtester.run_bar (cfg : RiskManagement) (strategy : StrategyFn)
    (risk : RiskFn) (exec : ExecFn) (symbol : String)
    (st : BacktestState) (kline : Kline) : Except BacktestError BacktestState :=
  match st.portfolio.get_position symbol, st.stop_loss_price with
  | some position, some sl_price =>
    let should_stop := match position.side with
      | OrderSide.Buy => decide (kline.low ≤ sl_price)
      | OrderSide.Sell => decide (sl_price ≤ kline.high)
    if should_stop then
      let close_order : OrderRequest :=
        { client_order_id := 0
          symbol := symbol
          side := if position.side = OrderSide.Buy then OrderSide.Sell
                  else OrderSide.Buy
          order_type := OrderType.Market
          quantity := position.quantity
          price := some sl_price
          position_side := none }
      match exec close_order kline none none with
      | Except.error err => Except.error (BacktestError.Executor err)
      | Except.ok execution =>
        match st.portfolio.update_with_execution execution with
        | (Except.error err, _) => Except.error (BacktestError.Executor err)
        | (Except.ok _, portfolio') =>
          let completed := match st.pending_entry with
            | some entry_execution => st.completed_trades ++
                [{ trade_id := 0
                   symbol := symbol
                   entry_execution := entry_execution
                   exit_execution := execution }]
            | none => st.completed_trades
          Except.ok { portfolio := portfolio'
                      pending_entry := none
                      stop_loss_price := none
                      completed_trades := completed
                      equity_curve := st.equity_curve }
    else
      Backtester.strategy_phase cfg strategy risk exec symbol st kline
  | some _, none =>
      Backtester.strategy_phase cfg strategy risk exec symbol st kline
  | none, _ =>
      -- no position: clear any stale stop (lines 132-135), then evaluate
      Backtester.strategy_phase cfg strategy risk exec symbol
        { st with stop_loss_price := none } kline

/-- The kline loop of Backtester::run: bars are consumed in order; a bar
error aborts the run (every fallible call inside the loop uses `?`). -/
def Backtester.run_loop (cfg : RiskManagement) (strategy : StrategyFn)
    (risk : RiskFn) (exec : ExecFn) (symbol : String) :
    BacktestState → List Kline → Except BacktestError BacktestState
  | st, [] => Except.ok st
  | st, kline :: rest =>
    match Backtester.run_bar cfg strategy risk exec symbol st kline with
    | Except.ok st' => Backtester.run_loop cfg strategy risk exec symbol st' rest
    | Except.error err => Except.error err

/-- PerformanceReport from `analytics/src/report.rs` (the holding period, a
`chrono::Duration`, is modelled in seconds). -/
structure PerformanceReport where
  total_net_profit : Dec
  gross_profit : Dec
  gross_loss : Dec
  profit_factor : Option Dec
  total_return_pct : Dec
  max_drawdown : Dec
  max_drawdown_pct : Dec
  sharpe_ratio : Option Dec
  calmar_ratio : Option Dec
  total_trades : Nat
  winning_trades : Nat
  losing_trades : Nat
  win_rate_pct : Option Dec
  average_win : Dec
  average_loss : Dec
  payoff_ratio : Option Dec
  average_holding_period : Int
deriving DecidableEq

/-- PerformanceReport::new from `analytics/src/report.rs` lines 66-87: the
zeroed-out report. -/
def PerformanceReport.new : PerformanceReport :=
  { total_net_profit := 0
    gross_profit := 0
    gross_loss := 0
    profit_factor := none
    total_return_pct := 0
    max_drawdown := 0
    max_drawdown_pct := 0
    sharpe_ratio := none
    calmar_ratio := none
    total_trades := 0
    winning_trades := 0
    losing_trades := 0
    win_rate_pct := none
    average_win := 0
    average_loss := 0
    payoff_ratio := none
    average_holding_period := 0 }

/-- Per-trade profit and loss (AnalyticsEngine::calculate_profitability,
`analytics/src/engine.rs` lines 89-98): signed by the entry side. -/
def AnalyticsEngine.trade_pnl (trade : Trade) : Dec :=
  match trade.entry_execution.side with
  | OrderSide.Buy =>
      (trade.exit_execution.price - trade.entry_execution.price)
        * trade.exit_execution.quantity
  | OrderSide.Sell =>
      (trade.entry_execution.price - trade.exit_execution.price)
        * trade.exit_execution.quantity

/-- Body of the per-trade loop of AnalyticsEngine::calculate_profitability
(`analytics/src/engine.rs` lines 87-110): accumulate net profit, then count
the trade as winning when its PnL is sign-positive (which in `rust_decimal`
includes a PnL of exactly zero), losing otherwise. -/
def AnalyticsEngine.profitability_step (report : PerformanceReport)
    (trade : Trade) : PerformanceReport :=
  let pnl := AnalyticsEngine.trade_pnl trade
  let report := { report with
    total_net_profit := report.total_net_profit + pnl }
  if decIsSignPositive pnl then
    { report with
      gross_profit := report.gross_profit + pnl
      winning_trades := report.winning_trades + 1 }
  else
    { report with
      gross_loss := report.gross_loss + |pnl|
      losing_trades := report.losing_trades + 1 }

/-- Ratio derivation after the per-trade loop of
AnalyticsEngine::calculate_profitability (`analytics/src/engine.rs` lines
112-137): profit factor, win rate, average win/loss, payoff ratio and total
return, each guarded by its denominator. -/
def AnalyticsEngine.profitability_post (initial_capital : Dec)
    (report : PerformanceReport) : PerformanceReport :=
  let report : PerformanceReport := if 0 < report.gross_loss then
      { report with profit_factor := some (report.gross_profit / report.gross_loss) }
    else report
  let report : PerformanceReport := if 0 < report.total_trades then
      let wr : Dec := (report.winning_trades : Dec) / (report.total_trades : Dec) * 100
      { report with win_rate_pct := some wr }
    else report
  let report : PerformanceReport := if 0 < report.winning_trades then
      { report with average_win := report.gross_profit / (report.winning_trades : Dec) }
    else report
  let report : PerformanceReport := if 0 < report.losing_trades then
      let report : PerformanceReport := { report with
        average_loss := report.gross_loss / (report.losing_trades : Dec) }
      if report.average_loss ≠ 0 then
        { report with payoff_ratio := some (report.average_win / report.average_loss) }
      else report
    else report
  if 0 < initial_capital then
    { report with total_return_pct := report.total_net_profit / initial_capital * 100 }
  else report

/-- AnalyticsEngine::calculate_profitability from `analytics/src/engine.rs`
lines 79-139, acting on a report the way the Rust mutates its `&mut` one:
record the trade count, fold the per-trade loop, then derive the ratios. -/
def AnalyticsEngine.calculate_profitability (trades : List Trade)
    (initial_capital : Dec) (report : PerformanceReport) : PerformanceReport :=
  AnalyticsEngine.profitability_post initial_capital
    (trades.foldl AnalyticsEngine.profitability_step
      { report with total_trades := trades.length })

/-- One iteration of the drawdown loop (AnalyticsEngine::calculate_drawdown,
`analytics/src/engine.rs` lines 150-164) over the state
(running peak, max drawdown so far, max drawdown percent so far). -/
def AnalyticsEngine.drawdown_step (s : Dec × Dec × Dec) (equity : Dec) :
    Dec × Dec × Dec :=
  let (peak_equity, max_drawdown_val, max_drawdown_pct) := s
  let peak_equity := if peak_equity < equity then equity else peak_equity
  let drawdown := peak_equity - equity
  if max_drawdown_val < drawdown then
    (peak_equity, drawdown,
     if peak_equity ≠ 0 then drawdown / peak_equity * 100 else max_drawdown_pct)
  else
    (peak_equity, max_drawdown_val, max_drawdown_pct)

/-- AnalyticsEngine::calculate_drawdown from `analytics/src/engine.rs` lines
142-169: the running peak starts at the first equity point and the whole
curve (first point included) is folded over.  The Rust indexes
`equity_curve[0]` and is only invoked on curves of length at least 2; the
model returns the untouched-loop result on the empty curve. -/
def AnalyticsEngine.calculate_drawdown (equity_curve : List (Timestamp × Dec))
    (report : PerformanceReport) : PerformanceReport :=
  match equity_curve with
  | [] => { report with max_drawdown := 0 }
  | (_, e0) :: _ =>
    let s := equity_curve.foldl
      (fun s pt => AnalyticsEngine.drawdown_step s pt.2)
      (e0, 0, report.max_drawdown_pct)
    { report with max_drawdown := s.2.1, max_drawdown_pct := s.2.2 }

/-- Running peak of an equity-value sequence, paired with the equity at each
point: the value of the drawdown loop's `peak_equity` at every iteration. -/
def runningPeaks : Dec → List Dec → List (Dec × Dec)
  | _, [] => []
  | peak, v :: rest =>
    let peak' := if peak < v then v else peak
    (peak', v) :: runningPeaks peak' rest

/-- Decimal::MAX, the largest representable `rust_decimal` value. -/
def decimalMAX : Dec := 79228162514264337593543950335

/-- Decimal::MIN, the smallest representable `rust_decimal` value. -/
def decimalMIN : Dec := -79228162514264337593543950335

/-- FullReport from `database/src/repository.rs` lines 76-101 (run metadata
joined with the nullable report metrics; the parameter JSON blob is modelled
as an opaque string). -/
structure FullReport where
  run_id : Nat
  job_id : Nat
  parameters : String
  report_id : Option Nat
  total_net_profit : Option Dec
  gross_profit : Option Dec
  gross_loss : Option Dec
  profit_factor : Option Dec
  total_return_pct : Option Dec
  max_drawdown : Option Dec
  max_drawdown_pct : Option Dec
  sharpe_ratio : Option Dec
  calmar_ratio : Option Dec
  total_trades : Option Int
  winning_trades : Option Int
  losing_trades : Option Int
  win_rate_pct : Option Dec
  average_win : Option Dec
  average_loss : Option Dec
  payoff_ratio : Option Dec
  average_holding_period : Option String
deriving DecidableEq

/-- Scoring weights from `configuration/src/optimizer_config.rs` lines
41-46. -/
structure Weights where
  weight_profit_factor : Dec
  weight_calmar_ratio : Dec
  weight_avg_win_loss_ratio : Dec
deriving DecidableEq

/-- Hard filters from `configuration/src/optimizer_config.rs` lines 35-38. -/
structure Filters where
  min_total_trades : Nat
  max_drawdown_pct : Dec
deriving DecidableEq

/-- Analyzer::filter_reports from `analyzer/src/lib.rs` lines 63-77: missing
trade counts default to 0, missing drawdowns to 100%. -/
def Analyzer.filter_reports (filters : Filters) (reports : List FullReport) :
    List FullReport :=
  reports.filter (fun r =>
    let total_trades := r.total_trades.getD 0
    let max_drawdown_pct := r.max_drawdown_pct.getD 100
    decide ((filters.min_total_trades : Int) ≤ total_trades)
      && decide (max_drawdown_pct < filters.max_drawdown_pct))

/-- find_min_max from `analyzer/src/lib.rs` lines 110-120: fold the present
values of one metric starting from `(Decimal::MAX, Decimal::MIN)`. -/
def find_min_max (reports : List FullReport) (accessor : FullReport → Option Dec) :
    Dec × Dec :=
  (reports.filterMap accessor).foldl
    (fun mm val => (min mm.1 val, max mm.2 val)) (decimalMAX, decimalMIN)

/-- normalize from `analyzer/src/lib.rs` lines 123-128: scale into `[0, 1]`,
returning 1 when all values coincide (the plain source name collides with a
Mathlib declaration, hence the namespace). -/
def Analyzer.normalize (value mn mx : Dec) : Dec :=
  if mn = mx then 1 else (value - mn) / (mx - mn)

/-- Analyzer::score_reports from `analyzer/src/lib.rs` lines 80-106: each
report is annotated with the weighted sum of its three normalized metrics
(absent metrics default to 0 before normalization). -/
def Analyzer.score_reports (w : Weights) (reports : List FullReport) :
    List (FullReport × Dec) :=
  let pf_mm := find_min_max reports (fun r => r.profit_factor)
  let cr_mm := find_min_max reports (fun r => r.calmar_ratio)
  let pr_mm := find_min_max reports (fun r => r.payoff_ratio)
  reports.map (fun r =>
    let norm_pf := Analyzer.normalize (r.profit_factor.getD 0) pf_mm.1 pf_mm.2
    let norm_cr := Analyzer.normalize (r.calmar_ratio.getD 0) cr_mm.1 cr_mm.2
    let norm_pr := Analyzer.normalize (r.payoff_ratio.getD 0) pr_mm.1 pr_mm.2
    (r, norm_pf * w.weight_profit_factor
        + norm_cr * w.weight_calmar_ratio
        + norm_pr * w.weight_avg_win_loss_ratio))

/-- Concrete cost parameters for the worked scenarios: no fee, no slippage
(the spec's stop-loss scenario fixes slippage to 0). -/
def exSimulation : Simulation := { taker_fee_pct := 0, slippage_pct := 0 }

/-- Concrete cost parameters with a 0.04-style taker fee and 10% slippage. -/
def exSimulation2 : Simulation := { taker_fee_pct := 1 / 1000, slippage_pct := 1 / 10 }

/-- Concrete risk parameters: risk 1% per trade, 2% stop (the spec's stop-loss
scenario). -/
def exRiskManagement : RiskManagement :=
  { risk_per_trade_pct := 1 / 100, stop_loss_pct := 2 / 100 }

/-- Alternative risk parameters, used to show sizing independence. -/
def exRiskManagement2 : RiskManagement :=
  { risk_per_trade_pct := 5 / 100, stop_loss_pct := 1 / 10 }

/-- A long position: 1 BTC at entry 100. -/
def exLongPosition : Position :=
  { position_id := 0
    symbol := "BTCUSDT"
    side := OrderSide.Buy
    quantity := 1
    entry_price := 100
    unrealized_pnl := 0
    last_updated := 0 }

/-- A long position: 2 BTC at entry 100. -/
def exLongPosition2 : Position := { exLongPosition with quantity := 2 }

/-- The entry fill that opened `exLongPosition`. -/
def exEntryExecution : Execution :=
  { execution_id := 0
    client_order_id := 0
    symbol := "BTCUSDT"
    price := 100
    quantity := 1
    fee := 0
    fee_asset := "USDT"
    timestamp := 1
    side := OrderSide.Buy }

/-- The exit fill the simulated executor produces for the stop-loss bar of
`exBar`: priced at the bar close 99, not at the stop 98. -/
def exExitExecution : Execution :=
  { execution_id := 0
    client_order_id := 0
    symbol := "BTCUSDT"
    price := 99
    quantity := 1
    fee := 0
    fee_asset := "USDT"
    timestamp := 42
    side := OrderSide.Sell }

/-- A buy fill: 2 BTC at 100 with fee 1. -/
def exBuyExecution : Execution :=
  { exEntryExecution with quantity := 2, fee := 1, timestamp := 5 }

/-- A sell fill closing `exBuyExecution`: 2 BTC at 100, no fee. -/
def exSellExecution : Execution :=
  { exEntryExecution with quantity := 2, timestamp := 6, side := OrderSide.Sell }

/-- A sell fill for 3 BTC — more than `exLongPosition2` holds. -/
def exExcessSell : Execution :=
  { exEntryExecution with quantity := 3, timestamp := 6, side := OrderSide.Sell }

/-- A portfolio holding `exLongPosition2` (2 BTC long) and 799 cash. -/
def exPortfolioLong : Portfolio :=
  { cash := 799, positions := [("BTCUSDT", exLongPosition2)] }

/-- The portfolio left behind when `exExcessSell` hits `exPortfolioLong`:
the sale proceeds were credited before the closing check failed. -/
def exPortfolioAfterIcq : Portfolio :=
  { cash := 1099, positions := [("BTCUSDT", exLongPosition2)] }

/-- The spec's stop-loss bar: low 97 breaches the stop at 98, close 99. -/
def exBar : Kline :=
  { open_time := 1
    close_time := 2
    interval := "1h"
    open_price := 100
    high := 100
    low := 97
    close := 99
    volume := 1 }

/-- Driver state holding `exLongPosition` with a tracked stop at 98 and the
stored pending entry. -/
def exStopState : BacktestState :=
  { portfolio := { cash := 900, positions := [("BTCUSDT", exLongPosition)] }
    pending_entry := some exEntryExecution
    stop_loss_price := some 98
    completed_trades := []
    equity_curve := [] }

/-- The state the driver reaches from `exStopState` on the stop-loss bar. -/
def exStopResult : BacktestState :=
  { portfolio := { cash := 999, positions := [] }
    pending_entry := none
    stop_loss_price := none
    completed_trades := [{ trade_id := 0
                           symbol := "BTCUSDT"
                           entry_execution := exEntryExecution
                           exit_execution := exExitExecution }]
    equity_curve := [] }

/-- The simulated executor wired into the driver (wall clock frozen at 42). -/
def exSimExecutor : ExecFn :=
  fun order kline _ _ =>
    Except.ok (SimulatedExecutor.execute exSimulation order kline 42)

/-- A bare Buy signal template with quantity 0 (sizing left to risk). -/
def exSignal : Signal :=
  { signal_id := 0
    timestamp := 2
    confidence := 1
    order_request :=
      { client_order_id := 0
        symbol := "BTCUSDT"
        side := OrderSide.Buy
        order_type := OrderType.Market
        quantity := 0
        price := none
        position_side := none } }

/-- A Sell signal template against `exLongPosition2`. -/
def exSellSignal : Signal :=
  { exSignal with
    order_request := { exSignal.order_request with
                       client_order_id := 7
                       side := OrderSide.Sell } }

/-- A strategy that always signals `exSignal`. -/
def exSignalStrategy : StrategyFn := fun _ => Except.ok (some exSignal)

/-- A risk manager that rejects every signal (e.g. "no order needed"). -/
def exRejectingRisk : RiskFn :=
  fun _ _ _ => Except.error (RiskError.Calculation "No order needed")

/-- Fresh driver state over a 1000-cash portfolio. -/
def exInitialState : BacktestState :=
  { portfolio := Portfolio.new 1000
    pending_entry := none
    stop_loss_price := none
    completed_trades := []
    equity_curve := [] }

/-- Portfolio snapshot holding `exLongPosition2`, equity 1200, cash 1000. -/
def exPortfolioState : PortfolioState :=
  { timestamp := 0
    cash := 1000
    total_value := 1200
    positions := [exLongPosition2] }

/-- An order request template used to probe the simulated executor. -/
def exOrder : OrderRequest :=
  { client_order_id := 9
    symbol := "BTCUSDT"
    side := OrderSide.Buy
    order_type := OrderType.Market
    quantity := 2
    price := none
    position_side := none }

/-- An optimizer run report: profit factor 3, Calmar 1, payoff 2. -/
def exReportA : FullReport :=
  { run_id := 1
    job_id := 0
    parameters := ""
    report_id := none
    total_net_profit := none
    gross_profit := none
    gross_loss := none
    profit_factor := some 3
    total_return_pct := none
    max_drawdown := none
    max_drawdown_pct := none
    sharpe_ratio := none
    calmar_ratio := some 1
    total_trades := some 30
    winning_trades := none
    losing_trades := none
    win_rate_pct := none
    average_win := none
    average_loss := none
    payoff_ratio := some 2
    average_holding_period := none }

/-- An optimizer run report: the same profit factor 3, Calmar 5, payoff 7. -/
def exReportB : FullReport :=
  { exReportA with run_id := 2, calmar_ratio := some 5, payoff_ratio := some 7 }

/-- The default scoring weights (0.4 / 0.4 / 0.2). -/
def exWeights : Weights :=
  { weight_profit_factor := 2 / 5
    weight_calmar_ratio := 2 / 5
    weight_avg_win_loss_ratio := 1 / 5 }

/-- The flat portfolio left after the round trip `exBuyExecution` then
`exSellExecution` starting from 1000 cash. -/
def exPortfolioFlat : Portfolio := { cash := 999, positions := [] }

theorem decIsSignNegative_false {x : Dec} (h : 0 ≤ x) : decIsSignNegative x = false := by
  simp [decIsSignNegative, not_lt.mpr h]

theorem update_ok_cash (p : Portfolio) (e : Execution) (r : Unit) (p1 : Portfolio)
    (h : p.update_with_execution e = (Except.ok r, p1)) :
    p1.cash = p.cash_after e := by
  simp only [Portfolio.update_with_execution, Portfolio.write_position] at h
  split at h
  · simp at h
  · split at h
    · split at h
      · simp at h
      · split at h <;> (cases h; rfl)
    · split at h <;> (cases h; rfl)

theorem posLookup_map_replace (l : List (String × Position)) (s : String) (v : Position)
    (hl : l.any (fun kv => decide (kv.1 = s)) = true) :
    posLookup (l.map (fun kv => if kv.1 = s then (s, v) else kv)) s = some v := by
  induction l with
  | nil => simp at hl
  | cons kv rest ih =>
    by_cases hk : kv.1 = s
    · simp [posLookup, hk, List.find?_cons_of_pos]
    · simp only [List.any_cons, Bool.or_eq_true, decide_eq_true_eq] at hl
      rcases hl with hl | hl
      · exact absurd hl hk
      · have := ih (by simpa using hl)
        simpa [posLookup, hk, List.find?_cons_of_neg] using this

theorem posLookup_append_self (l : List (String × Position)) (s : String) (v : Position)
    (hl : l.any (fun kv => decide (kv.1 = s)) = false) :
    posLookup (l ++ [(s, v)]) s = some v := by
  induction l with
  | nil => simp [posLookup]
  | cons kv rest ih =>
    simp only [List.any_cons, Bool.or_eq_false_iff, decide_eq_false_iff_not] at hl
    have := ih (by simp [hl.2])
    simpa [posLookup, hl.1, List.find?_cons_of_neg] using this

theorem posLookup_store (l : List (String × Position)) (s : String) (v : Position) :
    posLookup (posStore l s v) s = some v := by
  unfold posStore
  by_cases hc : l.any (fun kv => decide (kv.1 = s)) = true
  · rw [if_pos hc]; exact posLookup_map_replace l s v hc
  · rw [if_neg hc]
    exact posLookup_append_self l s v
      (by revert hc; cases l.any (fun kv => decide (kv.1 = s)) <;> simp)

theorem posLookup_remove (l : List (String × Position)) (s : String) :
    posLookup (posRemove l s) s = none := by
  induction l with
  | nil => rfl
  | cons kv rest ih =>
    by_cases hk : kv.1 = s
    · simpa [posRemove, List.filter_cons, hk] using ih
    · simp only [posRemove, List.filter_cons] at ih ⊢
      simpa [hk, posLookup, List.find?_cons_of_neg] using ih

theorem dd_fold_inv (rest : List Dec) :
    ∀ (peak mdd pct : Dec) (acc : List (Dec × Dec)),
    0 ≤ mdd →
    ((mdd = 0 ∧ pct = 0) ∨
      ∃ pr ∈ acc, mdd = pr.1 - pr.2 ∧ (pr.1 ≠ 0 → pct = mdd / pr.1 * 100)) →
    0 ≤ (rest.foldl AnalyticsEngine.drawdown_step (peak, mdd, pct)).2.1 ∧
    (((rest.foldl AnalyticsEngine.drawdown_step (peak, mdd, pct)).2.1 = 0 ∧
      (rest.foldl AnalyticsEngine.drawdown_step (peak, mdd, pct)).2.2 = 0) ∨
      ∃ pr ∈ acc ++ runningPeaks peak rest,
        (rest.foldl AnalyticsEngine.drawdown_step (peak, mdd, pct)).2.1 = pr.1 - pr.2 ∧
        (pr.1 ≠ 0 →
          (rest.foldl AnalyticsEngine.drawdown_step (peak, mdd, pct)).2.2 =
            (rest.foldl AnalyticsEngine.drawdown_step (peak, mdd, pct)).2.1 / pr.1 * 100)) := by
  induction rest with
  | nil =>
    intro peak mdd pct acc h0 hinv
    refine ⟨h0, ?_⟩
    simpa [runningPeaks] using hinv
  | cons v rest' ih =>
    intro peak mdd pct acc h0 hinv
    simp only [List.foldl_cons, AnalyticsEngine.drawdown_step]
    set peak' := if peak < v then v else peak with hpeak
    by_cases hlt : mdd < peak' - v
    · rw [if_pos hlt]
      have hstep := ih peak' (peak' - v)
        (if peak' ≠ 0 then (peak' - v) / peak' * 100 else pct)
        (acc ++ [(peak', v)])
        (le_of_lt (lt_of_le_of_lt h0 hlt))
        (Or.inr ⟨(peak', v), by simp, rfl, by intro hne; rw [if_pos hne]⟩)
      have hacc : (acc ++ [(peak', v)]) ++ runningPeaks peak' rest' =
          acc ++ runningPeaks peak (v :: rest') := by
        simp [runningPeaks, List.append_assoc]
      rwa [hacc] at hstep
    · rw [if_neg hlt]
      have hstep := ih peak' mdd pct (acc ++ [(peak', v)]) h0
        (hinv.imp id (fun ⟨pr, hpr, hprop⟩ => ⟨pr, List.mem_append_left _ hpr, hprop⟩))
      have hacc : (acc ++ [(peak', v)]) ++ runningPeaks peak' rest' =
          acc ++ runningPeaks peak (v :: rest') := by
        simp [runningPeaks, List.append_assoc]
      rwa [hacc] at hstep

theorem dd_fold_mono (vs : List Dec) :
    ∀ (peak mdd pct : Dec), 0 ≤ mdd → List.Chain (· ≤ ·) peak vs →
    (vs.foldl AnalyticsEngine.drawdown_step (peak, mdd, pct)).2.1 = mdd := by
  induction vs with
  | nil => intro peak mdd pct _ _; rfl
  | cons v rest ih =>
    intro peak mdd pct h0 hchain
    rcases hchain with _ | ⟨hle, hchain'⟩
    simp only [List.foldl_cons, AnalyticsEngine.drawdown_step]
    have hpeak : (if peak < v then v else peak) = v := by
      by_cases hlt : peak < v
      · rw [if_pos hlt]
      · rw [if_neg hlt]; exact le_antisymm hle (not_lt.mp hlt)
    rw [hpeak]
    have hd : ¬ mdd < v - v := by simp [h0]
    rw [if_neg hd]
    exact ih v mdd pct h0 hchain'

theorem foldl_minmax_const (l : List Dec) (v : Dec) :
    (∀ x ∈ l, x = v) →
    ∀ a b : Dec, a = v → b = v →
      l.foldl (fun mm val => (min mm.1 val, max mm.2 val)) (a, b) = (v, v) := by
  induction l with
  | nil => intro _ a b ha hb; simp [ha, hb]
  | cons x rest ih =>
    intro hall a b ha hb
    have hx : x = v := hall x (List.mem_cons_self x rest)
    have hrest : ∀ y ∈ rest, y = v := fun y hy => hall y (List.mem_cons_of_mem x hy)
    simp only [List.foldl_cons]
    exact ih hrest _ _ (by simp [ha, hx]) (by simp [hb, hx])

theorem find_min_max_const (reports : List FullReport)
    (accessor : FullReport → Option Dec) (v : Dec)
    (hne : reports ≠ [])
    (hall : ∀ r ∈ reports, accessor r = some v)
    (hub : v ≤ decimalMAX) (hlb : decimalMIN ≤ v) :
    find_min_max reports accessor = (v, v) := by
  cases reports with
  | nil => exact absurd rfl hne
  | cons r rest =>
    unfold find_min_max
    have hr : accessor r = some v := hall r (List.mem_cons_self r rest)
    have hrest : ∀ x ∈ rest.filterMap accessor, x = v := by
      intro x hx
      rcases List.mem_filterMap.mp hx with ⟨r', hr', hacc⟩
      have := hall r' (List.mem_cons_of_mem r hr')
      rw [this] at hacc
      exact (Option.some.injEq _ _ ▸ hacc).symm
    simp only [List.filterMap_cons, hr, List.foldl_cons]
    exact foldl_minmax_const _ v hrest _ _
      (by simp [min_eq_right hub]) (by simp [max_eq_right hlb])

theorem prof_fold (trades : List Trade) :
    ∀ r : PerformanceReport,
    (trades.foldl AnalyticsEngine.profitability_step r).winning_trades
        = r.winning_trades
          + (trades.filter fun t =>
              decIsSignPositive (AnalyticsEngine.trade_pnl t)).length
    ∧ (trades.foldl AnalyticsEngine.profitability_step r).losing_trades
        = r.losing_trades
          + (trades.filter fun t =>
              !decIsSignPositive (AnalyticsEngine.trade_pnl t)).length
    ∧ (trades.foldl AnalyticsEngine.profitability_step r).total_trades
        = r.total_trades
    ∧ (trades.foldl AnalyticsEngine.profitability_step r).win_rate_pct
        = r.win_rate_pct := by
  induction trades with
  | nil => intro r; simp
  | cons t rest ih =>
    intro r
    simp only [List.foldl_cons, List.filter_cons]
    by_cases hp : decIsSignPositive (AnalyticsEngine.trade_pnl t) = true
    · have hstep : AnalyticsEngine.profitability_step r t =
          { r with
            total_net_profit := r.total_net_profit + AnalyticsEngine.trade_pnl t
            gross_profit := r.gross_profit + AnalyticsEngine.trade_pnl t
            winning_trades := r.winning_trades + 1 } := by
        simp [AnalyticsEngine.profitability_step, hp]
      rw [hstep]
      rcases ih _ with ⟨h1, h2, h3, h4⟩
      refine ⟨?_, ?_, ?_, ?_⟩
      · rw [h1]; simp [hp]; omega
      · rw [h2]; simp [hp]
      · rw [h3]
      · rw [h4]
    · have hstep : AnalyticsEngine.profitability_step r t =
          { r with
            total_net_profit := r.total_net_profit + AnalyticsEngine.trade_pnl t
            gross_loss := r.gross_loss + |AnalyticsEngine.trade_pnl t|
            losing_trades := r.losing_trades + 1 } := by
        simp [AnalyticsEngine.profitability_step, hp]
      rw [hstep]
      rcases ih _ with ⟨h1, h2, h3, h4⟩
      refine ⟨?_, ?_, ?_, ?_⟩
      · rw [h1]; simp [hp]
      · rw [h2]; simp [hp]; omega
      · rw [h3]
      · rw [h4]

theorem prof_post_fields (initial_capital : Dec) (r : PerformanceReport) :
    (AnalyticsEngine.profitability_post initial_capital r).winning_trades
      = r.winning_trades
    ∧ (AnalyticsEngine.profitability_post initial_capital r).losing_trades
      = r.losing_trades
    ∧ (AnalyticsEngine.profitability_post initial_capital r).win_rate_pct
      = (if 0 < r.total_trades then
          some ((r.winning_trades : Dec) / (r.total_trades : Dec) * 100)
        else r.win_rate_pct) := by
  simp only [AnalyticsEngine.profitability_post]
  repeat' split
  all_goals simp_all

/-- C1: on the spec's stop-loss scenario (long 1 BTC from 100, stop 98, bar
low 97 / close 99, zero slippage and fee) the driver does synthesize a
closing order for the full position quantity and does skip strategy and risk
evaluation for the bar — the outcome is the same for every strategy and risk
function — but the emitted Trade's exit execution is priced at the bar close
99, not at the stop price 98: the simulated executor never reads the order's
limit price, contradicting the claimed exit price. -/
theorem C1_stop_trigger_closes_full_quantity_but_fills_at_close :
    (∀ (strategy : StrategyFn) (risk : RiskFn),
      Backtester.run_bar exRiskManagement strategy risk exSimExecutor
        "BTCUSDT" exStopState exBar = Except.ok exStopResult)
    ∧ exStopState.stop_loss_price = some 98
    ∧ exStopResult.completed_trades.map (fun t => t.exit_execution.price) = [99]
    ∧ exStopResult.completed_trades.map (fun t => t.exit_execution.quantity)
        = [exLongPosition.quantity]
    ∧ (99 : Dec) ≠ 98 := by
  refine ⟨?_, rfl, rfl, rfl, by norm_num⟩
  intro strategy risk
  norm_num [Backtester.run_bar, exStopState, exBar, exStopResult, exSimExecutor,
    exSimulation, exLongPosition, exEntryExecution, exExitExecution,
    Portfolio.get_position, posLookup, posStore, posRemove,
    SimulatedExecutor.execute, SimulatedExecutor.calculate_slippage_price,
    Portfolio.update_with_execution, Portfolio.cash_after, Portfolio.write_position,
    freshPosition, decIsSignNegative, decIsSignPositive]
  simp

/-- C2: when the risk manager rejects the strategy's signal, the simulation
loop does not skip the bar — the `?` on the risk call propagates the
rejection, so the whole run aborts with the rejection as its error (here on
the first of two bars; the second is never processed). -/
theorem C2_risk_rejection_aborts_simulation_run :
    Backtester.run_loop exRiskManagement exSignalStrategy exRejectingRisk
      exSimExecutor "BTCUSDT" exInitialState [exBar, exBar]
    = Except.error (BacktestError.Risk (RiskError.Calculation "No order needed")) := by
  norm_num [Backtester.run_loop, Backtester.run_bar, Backtester.strategy_phase,
    Backtester.record_equity, exInitialState, exSignalStrategy, exRejectingRisk,
    exSignal, exBar, Portfolio.new, Portfolio.get_position, posLookup,
    Portfolio.calculate_total_equity, Portfolio.calculate_total_equity.go]

/-- C3: every simulated execution is priced at the close moved adversely by
`bar_range * slippage_pct` and charged `price * quantity * taker_fee_pct`,
but its timestamp is the wall clock (`Utc::now()`, the `now` argument), not
the kline's close time: at `now = 42` on a bar closing at time 2 the receipt
carries 42 ≠ 2. -/
theorem C3_simulated_execution_price_fee_and_wall_clock_timestamp :
    (∀ (params : Simulation) (order : OrderRequest) (kline : Kline) (now : Timestamp),
      (SimulatedExecutor.execute params order kline now).price =
        (match order.side with
          | OrderSide.Buy =>
              kline.close + (kline.high - kline.low) * params.slippage_pct
          | OrderSide.Sell =>
              kline.close - (kline.high - kline.low) * params.slippage_pct)
      ∧ (SimulatedExecutor.execute params order kline now).fee =
          (SimulatedExecutor.execute params order kline now).price
            * order.quantity * params.taker_fee_pct
      ∧ (SimulatedExecutor.execute params order kline now).timestamp = now)
    ∧ (SimulatedExecutor.execute exSimulation2 exOrder exBar 42).timestamp = 42
    ∧ exBar.close_time = 2
    ∧ (SimulatedExecutor.execute exSimulation2 exOrder exBar 42).timestamp
        ≠ exBar.close_time := by
  refine ⟨?_, rfl, rfl, by simp [SimulatedExecutor.execute, exBar]⟩
  intro params order kline now
  refine ⟨?_, rfl, rfl⟩
  simp only [SimulatedExecutor.execute, SimulatedExecutor.calculate_slippage_price]
  by_cases hr : kline.high - kline.low = 0
  · rw [if_pos hr]
    cases order.side <;> simp [hr]
  · rw [if_neg hr]

/-- C4: past the cash check, a closing execution (which presupposes an
existing position — the fresh entry created when none exists carries the
execution's own side, so the claim's "no position" disjunct cannot occur)
fails with `InvalidClosingQuantity` exactly when its quantity exceeds the
position's; otherwise the position quantity drops by exactly the executed
quantity (the entry is removed when it reaches zero). -/
theorem C4_invalid_closing_quantity_exact_reduction (p : Portfolio) (e : Execution)
    (hcash : 0 ≤ p.cash_after e) :
    (p.is_closing_trade e = true → ∃ pos, p.get_position e.symbol = some pos) ∧
    (∀ pos, p.get_position e.symbol = some pos →
      decIsSignPositive pos.quantity = true → pos.side ≠ e.side →
      (pos.quantity < e.quantity →
        (p.update_with_execution e).1 =
          Except.error (ExecutorError.InvalidClosingQuantity e.quantity pos.quantity)) ∧
      (e.quantity ≤ pos.quantity →
        (p.update_with_execution e).1 = Except.ok () ∧
        (p.update_with_execution e).2.get_position e.symbol =
          (if pos.quantity - e.quantity = 0 then none
           else some { pos with
                       quantity := pos.quantity - e.quantity
                       last_updated := e.timestamp }))) := by
  constructor
  · intro hct
    unfold Portfolio.is_closing_trade at hct
    cases hp : p.get_position e.symbol with
    | none => rw [hp] at hct; simp at hct
    | some pos => exact ⟨pos, rfl⟩
  · intro pos hpos hsign hside
    have hneg : decIsSignNegative (p.cash_after e) = false := decIsSignNegative_false hcash
    have hget : (posLookup p.positions e.symbol).getD (freshPosition e) = pos := by
      unfold Portfolio.get_position at hpos
      rw [hpos]; rfl
    constructor
    · intro hlt
      simp only [Portfolio.update_with_execution, hneg, Bool.false_eq_true, if_false, hget]
      rw [if_pos ⟨hsign, hside⟩, if_pos hlt]
    · intro hle
      have hnlt : ¬ pos.quantity < e.quantity := not_lt.mpr hle
      simp only [Portfolio.update_with_execution, hneg, Bool.false_eq_true, if_false, hget]
      rw [if_pos ⟨hsign, hside⟩, if_neg hnlt]
      simp only [Portfolio.write_position]
      refine ⟨by split <;> rfl, ?_⟩
      by_cases hz : pos.quantity - e.quantity = 0
      · simp only [if_pos hz]
        simpa [Portfolio.get_position] using posLookup_remove p.positions e.symbol
      · simp only [if_neg hz]
        simpa [Portfolio.get_position] using posLookup_store p.positions e.symbol _

/-- C5: applying any sequence of executions that all succeed leaves the cash
at the initial cash plus sell proceeds, minus buy costs, minus all fees —
exactly, in exact decimal arithmetic. -/
theorem C5_cash_conservation (p : Portfolio) (es : List Execution) (p' : Portfolio)
    (h : p.update_all es = Except.ok p') :
    p'.cash = p.cash
      + ((es.filter fun e => decide (e.side = OrderSide.Sell)).map
          (fun e => e.price * e.quantity)).sum
      - ((es.filter fun e => decide (e.side = OrderSide.Buy)).map
          (fun e => e.price * e.quantity)).sum
      - (es.map fun e => e.fee).sum := by
  induction es generalizing p with
  | nil =>
    simp only [Portfolio.update_all, Except.ok.injEq] at h
    subst h
    simp
  | cons e rest ih =>
    simp only [Portfolio.update_all] at h
    rcases hu : p.update_with_execution e with ⟨res, p1⟩
    rw [hu] at h
    cases res with
    | error err => simp at h
    | ok u =>
      have hc : p1.cash = p.cash_after e := update_ok_cash p e u p1 hu
      have hrec := ih p1 h
      rw [hrec, hc]
      rcases hside : e.side with _ | _ <;>
        simp [Portfolio.cash_after, hside, List.filter_cons, List.sum_cons] <;> ring

/-- C6: a signal against an opposite-side position makes the risk manager
return (after the entry-price and equity validations) a closing order for the
full current position quantity, with the side flipped from the position's and
a position-side annotation — and the result is independent of the risk
parameters, so no risk-capital sizing is performed. -/
theorem C6_opposite_position_full_close_skips_sizing
    (params params2 : RiskManagement) (signal : Signal)
    (portfolio_state : PortfolioState) (entry_price : Dec) (position : Position)
    (hentry : ¬ entry_price ≤ 0)
    (hequity : ¬ portfolio_state.total_value ≤ 0)
    (hfind : portfolio_state.positions.find?
        (fun p => decide (p.symbol = signal.order_request.symbol)) = some position)
    (hside : position.side ≠ signal.order_request.side) :
    SimpleRiskManager.evaluate_signal params signal portfolio_state entry_price =
      Except.ok { signal.order_request with
                  quantity := position.quantity
                  side := position.side.opposite
                  position_side := some (PositionSide.from_order_side position.side.opposite) }
    ∧ SimpleRiskManager.evaluate_signal params signal portfolio_state entry_price =
      SimpleRiskManager.evaluate_signal params2 signal portfolio_state entry_price := by
  have key : ∀ q : RiskManagement,
      SimpleRiskManager.evaluate_signal q signal portfolio_state entry_price =
        Except.ok { signal.order_request with
                    quantity := position.quantity
                    side := position.side.opposite
                    position_side := some (PositionSide.from_order_side position.side.opposite) } := by
    intro q
    simp only [SimpleRiskManager.evaluate_signal, hfind]
    rw [if_neg hentry, if_neg hequity, if_pos hside]
  exact ⟨key params, (key params).trans (key params2).symm⟩

/-- C7: on any nonempty equity curve the computed max drawdown is
nonnegative; it is zero when the equity values are monotonically
nondecreasing; and the pair (max drawdown, max drawdown %) is realized at
some point of the curve whose running peak divides the percentage:
`pct = drawdown / peak-at-the-trough * 100`. -/
theorem C7_max_drawdown_nonneg_monotone_zero_peak_pct
    (t0 : Timestamp) (e0 : Dec) (rest : List (Timestamp × Dec)) :
    0 ≤ (AnalyticsEngine.calculate_drawdown ((t0, e0) :: rest)
          PerformanceReport.new).max_drawdown
    ∧ (List.Chain' (· ≤ ·) (((t0, e0) :: rest).map (fun pt => pt.2)) →
        (AnalyticsEngine.calculate_drawdown ((t0, e0) :: rest)
          PerformanceReport.new).max_drawdown = 0)
    ∧ ∃ pr ∈ runningPeaks e0 (((t0, e0) :: rest).map (fun pt => pt.2)),
        (AnalyticsEngine.calculate_drawdown ((t0, e0) :: rest)
          PerformanceReport.new).max_drawdown = pr.1 - pr.2
        ∧ (pr.1 ≠ 0 →
            (AnalyticsEngine.calculate_drawdown ((t0, e0) :: rest)
              PerformanceReport.new).max_drawdown_pct =
              (AnalyticsEngine.calculate_drawdown ((t0, e0) :: rest)
                PerformanceReport.new).max_drawdown / pr.1 * 100) := by
  have hmd :
      (AnalyticsEngine.calculate_drawdown ((t0, e0) :: rest)
        PerformanceReport.new).max_drawdown =
      ((((t0, e0) :: rest).map (fun pt => pt.2)).foldl
        AnalyticsEngine.drawdown_step (e0, 0, 0)).2.1 := by
    simp only [AnalyticsEngine.calculate_drawdown, List.foldl_map, PerformanceReport.new]
  have hpct :
      (AnalyticsEngine.calculate_drawdown ((t0, e0) :: rest)
        PerformanceReport.new).max_drawdown_pct =
      ((((t0, e0) :: rest).map (fun pt => pt.2)).foldl
        AnalyticsEngine.drawdown_step (e0, 0, 0)).2.2 := by
    simp only [AnalyticsEngine.calculate_drawdown, List.foldl_map, PerformanceReport.new]
  rw [hmd, hpct]
  set vs := ((t0, e0) :: rest).map (fun pt => pt.2) with hvs
  have hvs' : vs = e0 :: rest.map (fun pt => pt.2) := by simp [hvs]
  have hinv := dd_fold_inv vs e0 0 0 [] le_rfl (Or.inl ⟨rfl, rfl⟩)
  refine ⟨hinv.1, ?_, ?_⟩
  · intro hch
    rw [hvs'] at hch ⊢
    have hchain : List.Chain (· ≤ ·) e0 (e0 :: rest.map (fun pt => pt.2)) :=
      List.Chain.cons le_rfl hch
    exact dd_fold_mono _ e0 0 0 le_rfl hchain
  · rcases hinv.2 with ⟨hz, hpz⟩ | ⟨pr, hmem, hprop⟩
    · refine ⟨(e0, e0), ?_, ?_, ?_⟩
      · rw [hvs']
        simp [runningPeaks, lt_irrefl]
      · rw [hz]; simp
      · intro _; rw [hpz, hz]; simp
    · exact ⟨pr, by simpa using hmem, hprop⟩

/-- C8: when every surviving run carries the same (representable) profit
factor, the min and max coincide, normalization returns 1, and the
profit-factor component of every composite score is exactly the configured
profit-factor weight. -/
theorem C8_identical_profit_factor_scores_weight
    (w : Weights) (reports : List FullReport) (v : Dec)
    (hne : reports ≠ [])
    (hall : ∀ r ∈ reports, r.profit_factor = some v)
    (hub : v ≤ decimalMAX) (hlb : decimalMIN ≤ v) :
    ∀ rs ∈ Analyzer.score_reports w reports,
      rs.2 = w.weight_profit_factor
        + Analyzer.normalize (rs.1.calmar_ratio.getD 0)
            (find_min_max reports (fun r => r.calmar_ratio)).1
            (find_min_max reports (fun r => r.calmar_ratio)).2
          * w.weight_calmar_ratio
        + Analyzer.normalize (rs.1.payoff_ratio.getD 0)
            (find_min_max reports (fun r => r.payoff_ratio)).1
            (find_min_max reports (fun r => r.payoff_ratio)).2
          * w.weight_avg_win_loss_ratio := by
  intro rs hmem
  unfold Analyzer.score_reports at hmem
  rcases List.mem_map.mp hmem with ⟨r, hr, hrs⟩
  have hfmm := find_min_max_const reports (fun r => r.profit_factor) v hne hall hub hlb
  subst hrs
  simp only [hfmm]
  have hpf : r.profit_factor.getD 0 = v := by rw [hall r hr]; rfl
  rw [hpf]
  have hnorm : Analyzer.normalize v v v = 1 := by simp [Analyzer.normalize]
  rw [hnorm, one_mul]

/-- C9: whenever Portfolio::update_with_execution returns
`InvalidClosingQuantity`, the portfolio it leaves behind already carries the
execution's cash flow (proceeds or cost, and the fee) while the positions are
untouched: the update is not atomic on this error. -/
theorem C9_invalid_closing_error_keeps_cash_adjustment
    (p : Portfolio) (e : Execution) (r a : Dec) (p1 : Portfolio)
    (h : p.update_with_execution e =
      (Except.error (ExecutorError.InvalidClosingQuantity r a), p1)) :
    p1.cash = p.cash_after e ∧ p1.positions = p.positions := by
  simp only [Portfolio.update_with_execution, Portfolio.write_position] at h
  split at h
  · simp at h
  · split at h
    · split at h
      · cases h; exact ⟨rfl, rfl⟩
      · split at h <;> simp at h
    · split at h <;> simp at h

/-- C10: the profitability pass counts a trade as winning exactly when its
PnL is sign-positive — which includes a PnL of exactly zero (exit price equal
to entry price) — and as losing otherwise; the win rate is the winning count
over the total. -/
theorem C10_zero_pnl_trade_counted_winning (trades : List Trade) (initial_capital : Dec) :
    (AnalyticsEngine.calculate_profitability trades initial_capital
        PerformanceReport.new).winning_trades
      = (trades.filter fun t =>
          decIsSignPositive (AnalyticsEngine.trade_pnl t)).length
    ∧ (AnalyticsEngine.calculate_profitability trades initial_capital
        PerformanceReport.new).losing_trades
      = (trades.filter fun t =>
          !decIsSignPositive (AnalyticsEngine.trade_pnl t)).length
    ∧ (0 < trades.length →
        (AnalyticsEngine.calculate_profitability trades initial_capital
          PerformanceReport.new).win_rate_pct
        = some (((trades.filter fun t =>
              decIsSignPositive (AnalyticsEngine.trade_pnl t)).length : Dec)
            / (trades.length : Dec) * 100))
    ∧ ∀ t : Trade, t.exit_execution.price = t.entry_execution.price →
        decIsSignPositive (AnalyticsEngine.trade_pnl t) = true := by
  obtain ⟨hw2, hl2, ht2, hwr2⟩ :=
    prof_fold trades { PerformanceReport.new with total_trades := trades.length }
  obtain ⟨hpw, hpl, hpwr⟩ := prof_post_fields initial_capital
    (trades.foldl AnalyticsEngine.profitability_step
      { PerformanceReport.new with total_trades := trades.length })
  simp only [AnalyticsEngine.calculate_profitability]
  refine ⟨?_, ?_, ?_, ?_⟩
  · rw [hpw, hw2]; simp [PerformanceReport.new]
  · rw [hpl, hl2]; simp [PerformanceReport.new]
  · intro hL
    rw [hpwr, ht2]
    have hcond : 0 < ({ PerformanceReport.new with
        total_trades := trades.length } : PerformanceReport).total_trades := by
      simpa using hL
    rw [if_pos hcond, hw2]
    simp [PerformanceReport.new]
  · intro t ht
    unfold AnalyticsEngine.trade_pnl decIsSignPositive
    cases t.entry_execution.side <;> simp [ht]

/-- Witness for C4 at a 2-BTC long hit by a 3-BTC closing sell. -/
theorem C4_invalid_closing_quantity_exact_reduction_witness :
    (exPortfolioLong.is_closing_trade exExcessSell = true →
      ∃ pos, exPortfolioLong.get_position exExcessSell.symbol = some pos) ∧
    (∀ pos, exPortfolioLong.get_position exExcessSell.symbol = some pos →
      decIsSignPositive pos.quantity = true → pos.side ≠ exExcessSell.side →
      (pos.quantity < exExcessSell.quantity →
        (exPortfolioLong.update_with_execution exExcessSell).1 =
          Except.error (ExecutorError.InvalidClosingQuantity
            exExcessSell.quantity pos.quantity)) ∧
      (exExcessSell.quantity ≤ pos.quantity →
        (exPortfolioLong.update_with_execution exExcessSell).1 = Except.ok () ∧
        (exPortfolioLong.update_with_execution exExcessSell).2.get_position
            exExcessSell.symbol =
          (if pos.quantity - exExcessSell.quantity = 0 then none
           else some { pos with
                       quantity := pos.quantity - exExcessSell.quantity
                       last_updated := exExcessSell.timestamp }))) := by
  refine C4_invalid_closing_quantity_exact_reduction exPortfolioLong exExcessSell ?_
  norm_num [Portfolio.cash_after, exPortfolioLong, exExcessSell, exEntryExecution]

/-- Witness for C5 on a buy-then-sell round trip from 1000 cash. -/
theorem C5_cash_conservation_witness :
    exPortfolioFlat.cash = (Portfolio.new 1000).cash
      + (([exBuyExecution, exSellExecution].filter
          fun e => decide (e.side = OrderSide.Sell)).map
            (fun e => e.price * e.quantity)).sum
      - (([exBuyExecution, exSellExecution].filter
          fun e => decide (e.side = OrderSide.Buy)).map
            (fun e => e.price * e.quantity)).sum
      - ([exBuyExecution, exSellExecution].map fun e => e.fee).sum := by
  refine C5_cash_conservation (Portfolio.new 1000) [exBuyExecution, exSellExecution]
    exPortfolioFlat ?_
  norm_num [Portfolio.update_all, Portfolio.update_with_execution,
    Portfolio.cash_after, Portfolio.write_position, Portfolio.new,
    posLookup, posStore, posRemove, freshPosition,
    decIsSignNegative, decIsSignPositive,
    exBuyExecution, exSellExecution, exEntryExecution, exPortfolioFlat]
  simp

/-- Witness for C6: a Sell signal against a 2-BTC long yields a full 2-BTC
close, independent of the risk parameters. -/
theorem C6_opposite_position_full_close_skips_sizing_witness :
    SimpleRiskManager.evaluate_signal exRiskManagement exSellSignal
        exPortfolioState 110 =
      Except.ok { exSellSignal.order_request with
                  quantity := exLongPosition2.quantity
                  side := exLongPosition2.side.opposite
                  position_side :=
                    some (PositionSide.from_order_side exLongPosition2.side.opposite) }
    ∧ SimpleRiskManager.evaluate_signal exRiskManagement exSellSignal
        exPortfolioState 110 =
      SimpleRiskManager.evaluate_signal exRiskManagement2 exSellSignal
        exPortfolioState 110 := by
  refine C6_opposite_position_full_close_skips_sizing exRiskManagement exRiskManagement2
    exSellSignal exPortfolioState 110 exLongPosition2 ?_ ?_ ?_ ?_
  · norm_num
  · norm_num [exPortfolioState]
  · simp [exPortfolioState, exLongPosition2, exLongPosition, exSellSignal, exSignal]
  · decide

/-- Witness for C8 on two runs sharing profit factor 3: the first run's score
is 2/5, exactly the profit-factor weight (its other normalized metrics are
0). -/
theorem C8_identical_profit_factor_scores_weight_witness :
    ((exReportA, (2 : Dec)/5)).2 = exWeights.weight_profit_factor
      + Analyzer.normalize (((exReportA, (2 : Dec)/5)).1.calmar_ratio.getD 0)
          (find_min_max [exReportA, exReportB] (fun r => r.calmar_ratio)).1
          (find_min_max [exReportA, exReportB] (fun r => r.calmar_ratio)).2
        * exWeights.weight_calmar_ratio
      + Analyzer.normalize (((exReportA, (2 : Dec)/5)).1.payoff_ratio.getD 0)
          (find_min_max [exReportA, exReportB] (fun r => r.payoff_ratio)).1
          (find_min_max [exReportA, exReportB] (fun r => r.payoff_ratio)).2
        * exWeights.weight_avg_win_loss_ratio := by
  refine C8_identical_profit_factor_scores_weight exWeights [exReportA, exReportB] 3
    ?_ ?_ ?_ ?_ (exReportA, (2 : Dec)/5) ?_
  · simp
  · intro r hr
    rcases List.mem_cons.mp hr with h | h
    · subst h; rfl
    · rcases List.mem_cons.mp h with h2 | h2
      · subst h2; rfl
      · simp at h2
  · norm_num [decimalMAX]
  · norm_num [decimalMIN]
  · norm_num [Analyzer.score_reports, find_min_max, Analyzer.normalize,
      decimalMAX, decimalMIN, exReportA, exReportB, exWeights,
      List.foldl_cons, List.foldl_nil, List.filterMap_cons, min_def, max_def]

/-- Witness for C9: after the failed 3-BTC close of a 2-BTC long, the cash
already carries the 300 sale proceeds while the position list is unchanged. -/
theorem C9_invalid_closing_error_keeps_cash_adjustment_witness :
    exPortfolioAfterIcq.cash = exPortfolioLong.cash_after exExcessSell
    ∧ exPortfolioAfterIcq.positions = exPortfolioLong.positions := by
  refine C9_invalid_closing_error_keeps_cash_adjustment exPortfolioLong exExcessSell 3 2
    exPortfolioAfterIcq ?_
  norm_num [Portfolio.update_with_execution, Portfolio.cash_after,
    Portfolio.write_position, posLookup, posStore, posRemove, freshPosition,
    decIsSignNegative, decIsSignPositive, exPortfolioLong, exPortfolioAfterIcq,
    exExcessSell, exEntryExecution, exLongPosition2, exLongPosition]
  decide
